import Mathlib

/-!
Shallow embedding of the encrypted clipboard-history engine of
sparesparrow/cliphist-android.  The repository is a set of generator
scripts whose string payloads are the Kotlin sources; the definitions
below are translated from those Kotlin sources:

* domain model (`ClipboardItem`, `ClipboardItemEntity`, `ClipboardSettings`,
  `ContentType`, `ClipboardMode`) — backup_20250719_143754/script_2.py;
* `EncryptionManager.encrypt` / `EncryptionManager.decrypt` — script_3.py;
* `ClipboardRepositoryImpl` (`mapItemToEntity`, `mapEntityToItem`,
  `deleteItemsOlderThan`), the DAO insert with REPLACE conflict strategy,
  and the use cases (`AddClipboardItemUseCase`, `CleanupOldItemsUseCase`)
  — backup_20250719_143754/script_4.py and script_3.py (DAO);
* `ClipboardService.handleClipboardChange` / `determineContentType`
  — script_7.py;
* `FloatingBubbleService` (bubble state, `handleEmptyBubbleClick`,
  `handleFullBubbleClick`, `handleModeBubbleClick`, `removeAllBubbles`)
  — script_7.py.

External collaborators (the Android keystore AES cipher, android.util.Base64,
the system clipboard, UUID generation, wall-clock time) are modelled as
explicit parameters; byte arrays are `List Nat`, UUID ids are opaque `Nat`
tokens, and timestamps are unbounded `Int` milliseconds.
-/

namespace Cliphist

/-- Kotlin `String.isBlank()`: empty or consisting solely of whitespace
characters. -/
def isBlank (s : String) : Bool :=
  s.data.all fun c => c.isWhitespace

/-- `ContentType` enum (domain/model, backup script_2.py). -/
inductive ContentType where
  | TEXT
  | IMAGE
  | URL
  | FILE
  | OTHER
deriving DecidableEq, Repr

/-- `ClipboardMode` enum (domain/model, backup script_2.py). -/
inductive ClipboardMode where
  | REPLACE
  | EXTEND
deriving DecidableEq, Repr

/-- Domain model `ClipboardItem` (backup script_2.py).  The UUID string id
is modelled as an opaque `Nat` token. -/
structure ClipboardItem where
  id : Nat
  content : String
  timestamp : Int
  contentType : ContentType
  isEncrypted : Bool
  size : Nat
deriving DecidableEq, Repr

/-- Room entity `ClipboardItemEntity` (backup script_2.py). -/
structure ClipboardItemEntity where
  id : Nat
  content : String
  timestamp : Int
  contentType : ContentType
  isEncrypted : Bool
  size : Nat
deriving DecidableEq, Repr

/-- `ClipboardSettings` (backup script_2.py).  The float field
`bubbleOpacity` is rendering-only and omitted from the model. -/
structure ClipboardSettings where
  maxHistorySize : Int := 100
  autoDeleteAfterHours : Int := 24
  enableEncryption : Bool := true
  bubbleSize : Int := 3
  clipboardMode : ClipboardMode := ClipboardMode.REPLACE
deriving DecidableEq, Repr

/-- The settings produced by `ClipboardRepositoryImpl.getSettings` when the
preference store holds no overrides (all code defaults). -/
def defaultSettings : ClipboardSettings := {}

/-!
## Cipher Vault (`EncryptionManager`, script_3.py)

`encrypt` runs the keystore AES/CBC/PKCS7 cipher with a fresh cipher-chosen
IV, prepends the IV to the cipher output and base64-encodes the blob;
`decrypt` base64-decodes, splits the first 16 bytes as IV and runs the
cipher in decrypt mode.  Any thrown exception is caught and surfaces as
`null`.  The external crypto primitives (javax.crypto cipher calls,
android.util.Base64) are modelled as the fields of `CryptoPrims`; the
fresh-IV-per-call source is modelled by indexing `newIv` with a call
counter. -/
structure CryptoPrims where
  newIv : Nat → List Nat
  aesEncrypt : List Nat → List Nat → Option (List Nat)
  aesDecrypt : List Nat → List Nat → Option (List Nat)
  b64encode : List Nat → List Nat
  b64decode : List Nat → Option (List Nat)

/-- `EncryptionManager.encrypt` (script_3.py lines 283-299): cipher output
with the IV prepended, base64-encoded; `none` when the cipher throws. -/
def EncryptionManager.encrypt (C : CryptoPrims) (call : Nat) (plaintext : List Nat) :
    Option (List Nat) :=
  match C.aesEncrypt (C.newIv call) plaintext with
  | none => none
  | some encryptedBytes => some (C.b64encode (C.newIv call ++ encryptedBytes))

/-- `EncryptionManager.decrypt` (script_3.py lines 307-323): base64-decode,
split IV as the first 16 bytes (`sliceArray(0..15)` throws on shorter
input, caught as `null`), decrypt the rest. -/
def EncryptionManager.decrypt (C : CryptoPrims) (encryptedText : List Nat) :
    Option (List Nat) :=
  match C.b64decode encryptedText with
  | none => none
  | some combined =>
    if combined.length < 16 then none
    else
      C.aesDecrypt (combined.take 16) (combined.drop 16)

/-- Instantiation of the external crypto primitives in which the cipher and
the base64 codec trivially satisfy their library contracts (used to witness
the round-trip theorem on concrete payloads). -/
def idPrims : CryptoPrims where
  newIv _ := List.replicate 16 0
  aesEncrypt _ b := some b
  aesDecrypt _ b := some b
  b64encode l := l
  b64decode l := some l

/-- Claim C2: for every plaintext `p` (including the empty payload and
payloads of 10 KB or more), whenever `EncryptionManager.encrypt` succeeds,
`EncryptionManager.decrypt` of its output returns exactly `p`.  The
hypotheses are the documented contracts of the external primitives: the
AES-CBC IV is 16 bytes, base64 decode inverts encode, and the cipher in
decrypt mode inverts the cipher in encrypt mode under the same key/IV. -/
theorem decrypt_encrypt_roundtrip (C : CryptoPrims) (call : Nat) (p blob : List Nat)
    (hIv : (C.newIv call).length = 16)
    (hB64 : ∀ l, C.b64decode (C.b64encode l) = some l)
    (hAes : ∀ iv b c, C.aesEncrypt iv b = some c → C.aesDecrypt iv c = some b)
    (hEnc : EncryptionManager.encrypt C call p = some blob) :
    EncryptionManager.decrypt C blob = some p := by
  unfold EncryptionManager.encrypt at hEnc
  cases hE : C.aesEncrypt (C.newIv call) p with
  | none => rw [hE] at hEnc; exact absurd hEnc (by simp)
  | some c =>
    rw [hE] at hEnc
    have hblob : blob = C.b64encode (C.newIv call ++ c) := by
      simpa using hEnc.symm
    subst hblob
    unfold EncryptionManager.decrypt
    rw [hB64]
    dsimp only
    have hlen : ¬ ((C.newIv call ++ c).length < 16) := by
      simp [List.length_append, hIv]
    rw [if_neg hlen]
    have htake : (C.newIv call ++ c).take 16 = C.newIv call := by
      rw [← hIv]; exact List.take_left _ _
    have hdrop : (C.newIv call ++ c).drop 16 = c := by
      rw [← hIv]; exact List.drop_left _ _
    rw [htake, hdrop]
    exact hAes _ _ _ hE

/-- Witness for C2: the round trip at a 10240-byte payload and at the empty
payload, with the external primitives instantiated by `idPrims`. -/
theorem decrypt_encrypt_roundtrip_witness :
    EncryptionManager.decrypt idPrims (List.replicate 16 0 ++ List.replicate 10240 65)
        = some (List.replicate 10240 65)
    ∧ EncryptionManager.decrypt idPrims (List.replicate 16 0) = some [] := by
  constructor
  · exact decrypt_encrypt_roundtrip idPrims 0 (List.replicate 10240 65) _
      (by simp [idPrims])
      (fun l => rfl)
      (fun iv b c h => by
        have hbc : b = c := by simpa [idPrims] using h
        subst hbc; rfl)
      rfl
  · exact decrypt_encrypt_roundtrip idPrims 0 [] _
      (by simp [idPrims])
      (fun l => rfl)
      (fun iv b c h => by
        have hbc : b = c := by simpa [idPrims] using h
        subst hbc; rfl)
      rfl

/-!
## History Store (repository + DAO + use cases, backup script_4.py and
script_3.py)

`ClipboardRepositoryImpl` maps between the domain model and the Room
entity, delegating encryption to the vault; the vault's `encrypt` and
`decrypt` calls are passed in as `String → Option String` (`none` models
the Kotlin `null` failure result).  The DAO persists a table of entities;
it is modelled as a `List ClipboardItemEntity` in insertion order.
-/

/-- `ClipboardRepositoryImpl.mapItemToEntity` (backup script_4.py lines
233-248): when the item is marked encrypted, store `encrypt(content)`,
falling back to the plaintext content when encryption fails (`?:`); the
entity's `isEncrypted` flag copies the item's flag in either case. -/
def mapItemToEntity (enc : String → Option String) (item : ClipboardItem) :
    ClipboardItemEntity :=
  { id := item.id
    content := if item.isEncrypted then (enc item.content).getD item.content
               else item.content
    timestamp := item.timestamp
    contentType := item.contentType
    isEncrypted := item.isEncrypted
    size := item.size }

/-- `ClipboardRepositoryImpl.mapEntityToItem` (backup script_4.py lines
210-225): when the entity is flagged encrypted, return `decrypt(content)`,
falling back to the raw stored content when decryption fails (`?:`). -/
def mapEntityToItem (dec : String → Option String) (entity : ClipboardItemEntity) :
    ClipboardItem :=
  { id := entity.id
    content := if entity.isEncrypted then (dec entity.content).getD entity.content
               else entity.content
    timestamp := entity.timestamp
    contentType := entity.contentType
    isEncrypted := entity.isEncrypted
    size := entity.size }

/-- The read path of `ClipboardRepositoryImpl.getAllItems`: every stored
entity is mapped through `mapEntityToItem` (backup script_4.py). -/
def getAllItems (dec : String → Option String) (entities : List ClipboardItemEntity) :
    List ClipboardItem :=
  entities.map (mapEntityToItem dec)

/-- DAO `insertItem` with `OnConflictStrategy.REPLACE` on the primary key
`id` (script_3.py): replace the row with the same id if present, otherwise
append a new row. -/
def insertEntity (store : List ClipboardItemEntity) (e : ClipboardItemEntity) :
    List ClipboardItemEntity :=
  if store.any fun x => x.id == e.id then
    store.map fun x => if x.id == e.id then e else x
  else
    store ++ [e]

/-- DAO `deleteItemsOlderThan` (script_3.py): `DELETE FROM clipboard_items
WHERE timestamp < threshold`. -/
def deleteItemsOlderThan (store : List ClipboardItemEntity) (threshold : Int) :
    List ClipboardItemEntity :=
  store.filter fun e => !(decide (e.timestamp < threshold))

/-- DAO `deleteItemById` (script_3.py): `DELETE FROM clipboard_items WHERE
id = id`. -/
def deleteItemById (store : List ClipboardItemEntity) (id : Nat) :
    List ClipboardItemEntity :=
  store.filter fun e => !(e.id == id)

/-- `ClipboardRepositoryImpl.deleteItemsOlderThan` (backup script_4.py
lines 158-161): threshold is `now - hours * 60 * 60 * 1000`. -/
def repositoryDeleteItemsOlderThan (store : List ClipboardItemEntity)
    (now : Int) (hours : Int) : List ClipboardItemEntity :=
  deleteItemsOlderThan store (now - hours * 60 * 60 * 1000)

/-- `AddClipboardItemUseCase.invoke` (backup script_4.py lines 268-291)
composed with `ClipboardRepositoryImpl.insertItem`: build a `ClipboardItem`
with a fresh UUID token `id`, the current time `now`, `isEncrypted = true`
and `size = content.toByteArray().size`, then persist its entity.  The
use case performs no count-based eviction. -/
def addClipboardItem (enc : String → Option String) (store : List ClipboardItemEntity)
    (id : Nat) (now : Int) (content : String) (contentType : ContentType) :
    List ClipboardItemEntity :=
  insertEntity store (mapItemToEntity enc
    { id := id
      content := content
      timestamp := now
      contentType := contentType
      isEncrypted := true
      size := content.utf8ByteSize })

/-- `CleanupOldItemsUseCase.invoke` (backup script_4.py lines 370-381):
only the age-based purge `deleteItemsOlderThan(settings.autoDeleteAfterHours)`
runs; `settings.maxHistorySize` is never consulted. -/
def cleanupOldItems (store : List ClipboardItemEntity) (now : Int)
    (settings : ClipboardSettings) : List ClipboardItemEntity :=
  repositoryDeleteItemsOlderThan store now settings.autoDeleteAfterHours

/-- A vault whose `encrypt` always succeeds, returning the ciphertext as an
opaque string (instantiation parameter for count-level scenarios, where the
ciphertext value is irrelevant). -/
def encOk : String → Option String := fun s => some s

/-- A vault call that always fails, modelling the caught keystore/cipher
exception path that makes `EncryptionManager.encrypt`/`decrypt` return
`null`. -/
def encFail : String → Option String := fun _ => none

/-!
### Claim C1 scenario: repeated inserts through the service insert path

`ClipboardService.handleClipboardChange` runs `addClipboardItemUseCase`
followed by `cleanupOldItemsUseCase(settings)` after every accepted
observation (script_7.py lines 96-125).  The scenario below performs that
insert-then-cleanup step `n` times with distinct fresh ids and identical
fresh timestamps (all inserts at time 0, settings at their defaults, so
the age threshold never purges anything).
-/

/-- The entity stored for the `i`-th scenario insert (content `"x"`,
timestamp 0, vault succeeding). -/
def scenarioEntity (i : Nat) : ClipboardItemEntity :=
  mapItemToEntity encOk
    { id := i
      content := "x"
      timestamp := 0
      contentType := ContentType.TEXT
      isEncrypted := true
      size := "x".utf8ByteSize }

/-- One service-path insert step at time 0 with fresh id `i` followed by
the cleanup the service triggers. -/
def scenarioStep (store : List ClipboardItemEntity) (i : Nat) :
    List ClipboardItemEntity :=
  cleanupOldItems (addClipboardItem encOk store i 0 "x" ContentType.TEXT) 0
    defaultSettings

/-- The store contents after `n` scenario inserts starting from the empty
store. -/
def scenarioStore (n : Nat) : List ClipboardItemEntity :=
  (List.range n).foldl scenarioStep []

theorem insertEntity_fresh (store : List ClipboardItemEntity) (e : ClipboardItemEntity)
    (h : ∀ x ∈ store, x.id ≠ e.id) : insertEntity store e = store ++ [e] := by
  unfold insertEntity
  have hany : (store.any fun x => x.id == e.id) = false := by
    rw [List.any_eq_false]
    intro x hx
    simp [h x hx]
  rw [hany]
  simp

theorem deleteItemsOlderThan_keep (store : List ClipboardItemEntity) (threshold : Int)
    (h : ∀ e ∈ store, ¬ e.timestamp < threshold) :
    deleteItemsOlderThan store threshold = store := by
  unfold deleteItemsOlderThan
  apply List.filter_eq_self.mpr
  intro e he
  simp [h e he]

theorem scenarioStore_eq (n : Nat) :
    scenarioStore n = (List.range n).map scenarioEntity := by
  induction n with
  | zero => rfl
  | succ n ih =>
    have hstep : scenarioStore (n + 1) = scenarioStep (scenarioStore n) n := by
      unfold scenarioStore
      rw [List.range_succ, List.foldl_append]
      rfl
    rw [hstep, ih]
    show cleanupOldItems
        (insertEntity ((List.range n).map scenarioEntity) (scenarioEntity n)) 0
        defaultSettings = _
    rw [insertEntity_fresh _ _ ?hfresh]
    case hfresh =>
      intro x hx
      rcases List.mem_map.mp hx with ⟨i, hi, hix⟩
      have hid : x.id = i := by rw [← hix]; rfl
      have hidn : (scenarioEntity n).id = n := rfl
      have hlt : i < n := List.mem_range.mp hi
      rw [hid, hidn]
      omega
    rw [show [scenarioEntity n] = List.map scenarioEntity [n] from rfl,
      ← List.map_append, ← List.range_succ]
    unfold cleanupOldItems repositoryDeleteItemsOlderThan
    apply deleteItemsOlderThan_keep
    intro e he
    rcases List.mem_map.mp he with ⟨i, _, hie⟩
    have ht : e.timestamp = 0 := by rw [← hie]; rfl
    rw [ht]
    decide

/-- Claim C1 (code bug): the insert path enforces no `maxRecords` bound.
After 101 inserts through the service insert path (insert + cleanup, with
`ClipboardSettings` at their defaults, so `maxHistorySize = 100`), the
store holds all 101 records, contradicting the claimed invariant
`size ≤ maxRecords`. -/
theorem maxRecords_not_enforced :
    (scenarioStore 101).length = 101
    ∧ ¬ ((scenarioStore 101).length ≤ 100)
    ∧ defaultSettings.maxHistorySize = 100 := by
  have h := scenarioStore_eq 101
  refine ⟨?_, ?_, rfl⟩
  · rw [h, List.length_map, List.length_range]
  · rw [h, List.length_map, List.length_range]
    omega

/-!
### Claim C3: encryption-failure fallback on insert
-/

/-- A concrete item entering the insert path (`isEncrypted = true`, as
`AddClipboardItemUseCase` always sets it). -/
def item0 : ClipboardItem :=
  { id := 0
    content := "secret"
    timestamp := 0
    contentType := ContentType.TEXT
    isEncrypted := true
    size := 6 }

/-- Counterexample to claim C3 as stated: when the vault fails, the entity
persisted by `mapItemToEntity` keeps the plaintext content but its
`isEncrypted` flag stays `true` (it copies `item.isEncrypted`), not
`false`. -/
theorem encrypt_failure_flag_not_cleared :
    (mapItemToEntity encFail item0).content = "secret"
    ∧ (mapItemToEntity encFail item0).isEncrypted ≠ false := by
  constructor
  · rfl
  · simp [mapItemToEntity, encFail, item0]

/-- Claim C3 (amended): for every item on the insert path (flagged
`isEncrypted = true`) whose encryption fails, the persisted entity holds
the plaintext content, but the stored `isEncrypted` flag retains the
item's value `true` rather than being set to `false`. -/
theorem encrypt_failure_plaintext_fallback (enc : String → Option String)
    (item : ClipboardItem)
    (hflag : item.isEncrypted = true)
    (hfail : enc item.content = none) :
    (mapItemToEntity enc item).content = item.content
    ∧ (mapItemToEntity enc item).isEncrypted = true := by
  unfold mapItemToEntity
  rw [hflag]
  simp [hfail]

/-- Witness for the amended C3 at a concrete failing vault and item. -/
theorem encrypt_failure_plaintext_fallback_witness :
    (mapItemToEntity encFail item0).content = item0.content
    ∧ (mapItemToEntity encFail item0).isEncrypted = true :=
  encrypt_failure_plaintext_fallback encFail item0 rfl rfl

/-!
### Claim C7: decryption-failure fallback on read
-/

/-- A concrete stored entity flagged encrypted. -/
def entity0 : ClipboardItemEntity :=
  { id := 3
    content := "blob"
    timestamp := 5
    contentType := ContentType.TEXT
    isEncrypted := true
    size := 4 }

/-- Claim C7: a stored record whose content fails to decrypt is still
returned by the read path, with the raw stored bytes as its content; the
read maps every entity and never omits one. -/
theorem decrypt_failure_returns_raw (dec : String → Option String)
    (entity : ClipboardItemEntity) (entities : List ClipboardItemEntity)
    (hflag : entity.isEncrypted = true)
    (hfail : dec entity.content = none) :
    (mapEntityToItem dec entity).content = entity.content
    ∧ (getAllItems dec entities).length = entities.length := by
  constructor
  · unfold mapEntityToItem
    rw [hflag]
    simp [hfail]
  · unfold getAllItems
    exact List.length_map _ _

/-- Witness for C7 at a concrete always-failing decrypt and entity. -/
theorem decrypt_failure_returns_raw_witness :
    (mapEntityToItem encFail entity0).content = entity0.content
    ∧ (getAllItems encFail [entity0]).length = [entity0].length :=
  decrypt_failure_returns_raw encFail entity0 [entity0] rfl rfl

/-!
## Change Monitor (`ClipboardService`, script_7.py)

`handleClipboardChange` reads the primary clip (modelled as
`Option String`: `none` when `primaryClip` is null or has no items; a null
item text is `""`), drops blank or repeated text, and otherwise stores the
item via `AddClipboardItemUseCase` and then runs
`CleanupOldItemsUseCase(settings)`.  `lastClipboardText` starts as `""`
and is updated only when an item is stored.  The ghost field `created`
counts the records handed to `AddClipboardItemUseCase`.
-/

/-- `ClipboardService.determineContentType` (script_7.py lines 131-139).
The Kotlin image check is `matches(Regex(".*\x5c\x5c.(jpg|jpeg|png|gif|bmp|webp)$", IGNORE_CASE))`,
modelled as a case-insensitive suffix test (the regex dot-star does not
cross newlines, a corner no claim depends on). -/
def determineContentType (text : String) : ContentType :=
  if text.startsWith "http://" || text.startsWith "https://" then ContentType.URL
  else if text.startsWith "file://" then ContentType.FILE
  else if text.toLower.endsWith ".jpg" || text.toLower.endsWith ".jpeg"
      || text.toLower.endsWith ".png" || text.toLower.endsWith ".gif"
      || text.toLower.endsWith ".bmp" || text.toLower.endsWith ".webp" then
    ContentType.IMAGE
  else ContentType.TEXT

/-- State of `ClipboardService`: the dedup register `lastClipboardText`,
the persisted store, the UUID source (`nextId`), and the ghost insert
counter. -/
structure MonitorState where
  lastClipboardText : String
  store : List ClipboardItemEntity
  nextId : Nat
  created : Nat
deriving DecidableEq, Repr

/-- The initial `ClipboardService` state: `lastClipboardText = ""`, empty
store. -/
def monitorState0 : MonitorState :=
  { lastClipboardText := "", store := [], nextId := 0, created := 0 }

/-- `ClipboardService.handleClipboardChange` (script_7.py lines 96-125):
process one clipboard-changed notification at time `now`. -/
def handleClipboardChange (enc : String → Option String)
    (settings : ClipboardSettings) (st : MonitorState) (clip : Option String)
    (now : Int) : MonitorState :=
  match clip with
  | none => st
  | some clipText =>
    if isBlank clipText = false ∧ clipText ≠ st.lastClipboardText then
      { lastClipboardText := clipText
        store := cleanupOldItems
          (addClipboardItem enc st.store st.nextId now clipText
            (determineContentType clipText)) now settings
        nextId := st.nextId + 1
        created := st.created + 1 }
    else st

theorem handleClipboardChange_some (enc : String → Option String)
    (settings : ClipboardSettings) (st : MonitorState) (clipText : String)
    (now : Int) :
    handleClipboardChange enc settings st (some clipText) now
      = if isBlank clipText = false ∧ clipText ≠ st.lastClipboardText then
          { lastClipboardText := clipText
            store := cleanupOldItems
              (addClipboardItem enc st.store st.nextId now clipText
                (determineContentType clipText)) now settings
            nextId := st.nextId + 1
            created := st.created + 1 }
        else st := rfl

/-- Claim C4: a notification whose content is blank or identical to the
immediately preceding observed content creates no record (store and insert
counter unchanged), and the first of two consecutive identical values
creates exactly one record when it is a genuine new observation (and none
otherwise) — so two consecutive identical external-clipboard values
produce exactly one record. -/
theorem monitor_dedup (enc : String → Option String) (settings : ClipboardSettings)
    (st : MonitorState) (cPrev c : String) (n1 n2 : Int)
    (h : isBlank c = true ∨ c = cPrev) :
    (handleClipboardChange enc settings
        (handleClipboardChange enc settings st (some cPrev) n1) (some c) n2)
      = handleClipboardChange enc settings st (some cPrev) n1
    ∧ (handleClipboardChange enc settings st (some cPrev) n1).created
      = st.created
        + (if isBlank cPrev = false ∧ cPrev ≠ st.lastClipboardText then 1 else 0) := by
  constructor
  · by_cases h1 : isBlank cPrev = false ∧ cPrev ≠ st.lastClipboardText
    · have hst1 : handleClipboardChange enc settings st (some cPrev) n1
          = { lastClipboardText := cPrev
              store := cleanupOldItems
                (addClipboardItem enc st.store st.nextId n1 cPrev
                  (determineContentType cPrev)) n1 settings
              nextId := st.nextId + 1
              created := st.created + 1 } := by
        rw [handleClipboardChange_some, if_pos h1]
      rw [hst1]
      rw [handleClipboardChange_some, if_neg]
      intro hcond
      rcases h with hb | hceq
      · rw [hb] at hcond
        exact absurd hcond.1 (by simp)
      · exact hcond.2 (by rw [hceq])
    · have hst1 : handleClipboardChange enc settings st (some cPrev) n1 = st := by
        rw [handleClipboardChange_some, if_neg h1]
      rw [hst1]
      rw [handleClipboardChange_some, if_neg]
      intro hcond
      rcases h with hb | hceq
      · rw [hb] at hcond
        exact absurd hcond.1 (by simp)
      · rw [Classical.not_and_iff_or_not_not] at h1
        rcases h1 with hb1 | hlast
        · have hbPrev : isBlank cPrev = true := by
            cases hx : isBlank cPrev with
            | false => exact absurd hx hb1
            | true => rfl
          rw [hceq, hbPrev] at hcond
          exact absurd hcond.1 (by simp)
        · have hPrevLast : cPrev = st.lastClipboardText := by
            by_contra hne
            exact hlast hne
          exact hcond.2 (by rw [hceq, hPrevLast])
  · by_cases h1 : isBlank cPrev = false ∧ cPrev ≠ st.lastClipboardText
    · rw [handleClipboardChange_some, if_pos h1, if_pos h1]
    · rw [handleClipboardChange_some, if_neg h1, if_neg h1]
      simp

/-- Witness for C4: two consecutive observations of `"ab"` from the initial
monitor state create exactly one record; the second observation changes
nothing. -/
theorem monitor_dedup_witness :
    (handleClipboardChange encOk defaultSettings
        (handleClipboardChange encOk defaultSettings monitorState0 (some "ab") 0)
        (some "ab") 0)
      = handleClipboardChange encOk defaultSettings monitorState0 (some "ab") 0
    ∧ (handleClipboardChange encOk defaultSettings monitorState0 (some "ab") 0).created
      = monitorState0.created
        + (if isBlank "ab" = false ∧ "ab" ≠ monitorState0.lastClipboardText
           then 1 else 0) :=
  monitor_dedup encOk defaultSettings monitorState0 "ab" "ab" 0 0 (Or.inr rfl)

/-!
## Bubble Controller (`FloatingBubbleService`, script_7.py)

The service keeps a list `bubbles` of full (content-carrying) bubbles, an
optional empty (capture) bubble and an optional mode bubble, plus the
current `ClipboardMode`.  A `BubbleView` carries the content string for
`FULL` bubbles — the service holds no record ids and injects only the
read-side use cases (`GetAllClipboardItems`, `GetClipboardSettings`); its
click handlers never write to the repository.
-/

/-- `FloatingBubbleService.BubbleType` (script_7.py). -/
inductive BubbleType where
  | EMPTY
  | FULL
  | MODE
deriving DecidableEq, Repr

/-- `FloatingBubbleService.BubbleView` (script_7.py): the content string
(null except for full bubbles) and the window position. -/
structure BubbleView where
  content : Option String
  type : BubbleType
  x : Int
  y : Int
deriving DecidableEq, Repr

/-- State of `FloatingBubbleService`. -/
structure BubbleServiceState where
  bubbles : List BubbleView
  emptyBubble : Option BubbleView
  modeBubble : Option BubbleView
  currentMode : ClipboardMode
deriving DecidableEq, Repr

/-- The full bubble built by `createFullBubble(content, index)`
(script_7.py lines 379-400): positioned at
`x = 100 + (index + 1) * (BUBBLE_SIZE_DP + BUBBLE_MARGIN_DP)`, `y = 100`. -/
def mkFullBubble (content : String) (index : Nat) : BubbleView :=
  { content := some content
    type := BubbleType.FULL
    x := 100 + (Int.ofNat index + 1) * (60 + 16)
    y := 100 }

/-- The empty (capture) bubble built by `createEmptyBubble` (script_7.py):
positioned at (100, 100). -/
def mkEmptyBubble : BubbleView :=
  { content := none, type := BubbleType.EMPTY, x := 100, y := 100 }

/-- The mode bubble built by `createModeBubble` (script_7.py): positioned
at (100, 200). -/
def mkModeBubble : BubbleView :=
  { content := none, type := BubbleType.MODE, x := 100, y := 200 }

/-- `createFullBubble` appends the new bubble to `bubbles` (script_7.py
lines 379-400). -/
def createFullBubble (st : BubbleServiceState) (content : String) (index : Nat) :
    BubbleServiceState :=
  { st with bubbles := st.bubbles ++ [mkFullBubble content index] }

/-- `createEmptyBubble` installs a fresh capture bubble (script_7.py). -/
def createEmptyBubble (st : BubbleServiceState) : BubbleServiceState :=
  { st with emptyBubble := some mkEmptyBubble }

/-- `FloatingBubbleService.handleEmptyBubbleClick` (script_7.py lines
551-568): with non-blank clipboard text and a live capture bubble, remove
the capture bubble, append a full bubble at index `bubbles.size` holding
the text, and create a fresh capture bubble; otherwise do nothing.  The
handler performs no repository write. -/
def handleEmptyBubbleClick (st : BubbleServiceState) (clip : Option String) :
    BubbleServiceState :=
  match clip with
  | none => st
  | some clipText =>
    if isBlank clipText then st
    else
      match st.emptyBubble with
      | none => st
      | some _ =>
        createEmptyBubble
          (createFullBubble { st with emptyBubble := none } clipText
            st.bubbles.length)

/-- The capture tap at system level: the bubble state changes as
`handleEmptyBubbleClick` dictates and the History Store is untouched —
`FloatingBubbleService` injects no `AddClipboardItemUseCase` and the click
handler performs no insert (script_7.py lines 551-568), and the tap writes
nothing to the system clipboard, so `ClipboardService` observes no change
notification. -/
def tapCapture (sys : BubbleServiceState × List ClipboardItemEntity)
    (clip : Option String) : BubbleServiceState × List ClipboardItemEntity :=
  (handleEmptyBubbleClick sys.1 clip, sys.2)

/-- `FloatingBubbleService.handleFullBubbleClick` (script_7.py lines
575-592): the value written to the system clipboard when a full bubble
holding `content` is tapped, given the current mode and the clipboard's
current text (`none` when `primaryClip` is null). -/
def handleFullBubbleClick (mode : ClipboardMode) (clipboard : Option String)
    (content : String) : String :=
  match mode with
  | ClipboardMode.REPLACE => content
  | ClipboardMode.EXTEND =>
    let currentClip := clipboard.getD ""
    if isBlank currentClip then content else currentClip ++ "\n" ++ content

/-- `FloatingBubbleService.handleModeBubbleClick` (script_7.py): flip the
mode; bubbles other than the mode bubble's icon are untouched. -/
def handleModeBubbleClick (st : BubbleServiceState) : BubbleServiceState :=
  { st with currentMode :=
      match st.currentMode with
      | ClipboardMode.REPLACE => ClipboardMode.EXTEND
      | ClipboardMode.EXTEND => ClipboardMode.REPLACE }

/-- `FloatingBubbleService.removeAllBubbles` (script_7.py lines 624-636):
remove every bubble view and clear the lists (runs only on service
teardown). -/
def removeAllBubbles (st : BubbleServiceState) : BubbleServiceState :=
  { st with bubbles := [], emptyBubble := none, modeBubble := none }

/-- Record deletion at system level (`deleteItemById` through the
repository): the store row is removed; no code in `FloatingBubbleService`
observes the deletion (the bubble list is populated once in
`initializeBubbles` and never reconciled), so the bubble state is
unchanged. -/
def systemDeleteRecord (sys : BubbleServiceState × List ClipboardItemEntity)
    (id : Nat) : BubbleServiceState × List ClipboardItemEntity :=
  (sys.1, deleteItemById sys.2 id)

/-- A bubble-service state right after `initializeBubbles` with no stored
items: live capture and mode bubbles, no full bubbles, Replace mode. -/
def bubbleState0 : BubbleServiceState :=
  { bubbles := []
    emptyBubble := some mkEmptyBubble
    modeBubble := some mkModeBubble
    currentMode := ClipboardMode.REPLACE }

/-- Counterexample to claim C5 as stated: tapping the capture bubble with
the non-blank clipboard text `"hello"` leaves the History Store empty —
the tap inserts no `ClipboardRecord` (the new full bubble carries the text
itself, not a store record id). -/
theorem capture_tap_inserts_no_record :
    isBlank "hello" = false
    ∧ ((tapCapture (bubbleState0, []) (some "hello")).2).length = 0
    ∧ ((tapCapture (bubbleState0, []) (some "hello")).1).bubbles.length = 1 := by
  refine ⟨by decide, rfl, ?_⟩
  simp [tapCapture, handleEmptyBubbleClick, bubbleState0, createFullBubble,
    createEmptyBubble, isBlank]

/-- Claim C5 (amended): tapping Capture while the clipboard holds non-blank
text and a capture bubble is live appends one full bubble holding that text
at index `bubbles.size`, recreates the capture bubble (so exactly one
capture affordance remains, the `Option` field), and leaves the History
Store untouched — no record is inserted and no record id is bound. -/
theorem capture_tap_spawns_bubble (st : BubbleServiceState)
    (store : List ClipboardItemEntity) (clipText : String) (b : BubbleView)
    (hnb : isBlank clipText = false)
    (heb : st.emptyBubble = some b) :
    (handleEmptyBubbleClick st (some clipText)).bubbles
        = st.bubbles ++ [mkFullBubble clipText st.bubbles.length]
    ∧ (handleEmptyBubbleClick st (some clipText)).emptyBubble = some mkEmptyBubble
    ∧ (tapCapture (st, store) (some clipText)).2 = store := by
  unfold tapCapture handleEmptyBubbleClick
  dsimp only
  rw [hnb, heb]
  simp [createFullBubble, createEmptyBubble]

/-- Witness for the amended C5 at a concrete state and clipboard text. -/
theorem capture_tap_spawns_bubble_witness :
    (handleEmptyBubbleClick bubbleState0 (some "hi")).bubbles
        = bubbleState0.bubbles ++ [mkFullBubble "hi" bubbleState0.bubbles.length]
    ∧ (handleEmptyBubbleClick bubbleState0 (some "hi")).emptyBubble
        = some mkEmptyBubble
    ∧ (tapCapture (bubbleState0, []) (some "hi")).2 = [] :=
  capture_tap_spawns_bubble bubbleState0 [] "hi" mkEmptyBubble (by decide) rfl

/-- Claim C9: tapping the capture bubble while the clipboard is blank
(whitespace-only text) or absent (`primaryClip` null/empty) changes
nothing: no record is inserted, no bubble is created, the whole system
state is untouched. -/
theorem capture_tap_blank_noop (st : BubbleServiceState)
    (store : List ClipboardItemEntity) (clipText : String)
    (hb : isBlank clipText = true) :
    tapCapture (st, store) (some clipText) = (st, store)
    ∧ tapCapture (st, store) none = (st, store) := by
  constructor
  · unfold tapCapture handleEmptyBubbleClick
    dsimp only
    rw [hb]
    simp
  · rfl

/-- Witness for C9 at whitespace-only clipboard text. -/
theorem capture_tap_blank_noop_witness :
    tapCapture (bubbleState0, []) (some " ") = (bubbleState0, [])
    ∧ tapCapture (bubbleState0, []) none = (bubbleState0, []) :=
  capture_tap_blank_noop bubbleState0 [] " " (by decide)

/-- Counterexample to claim C6 as stated: in Extend mode with the clipboard
previously holding `" "` (a real, blank value), tapping a bubble with
content `"B"` writes exactly `"B"` — not `" "` followed by a newline and
`"B"` as the unconditional concatenation claim requires. -/
theorem extend_blank_not_concatenated :
    handleFullBubbleClick ClipboardMode.EXTEND (some " ") "B" = "B"
    ∧ "B" ≠ " " ++ "\n" ++ "B" := by
  constructor
  · decide
  · decide

/-- Claim C6 (amended): tapping a full bubble with content `B` writes, in
Replace mode, exactly `B`; in Extend mode with the clipboard previously
holding non-blank `A`, it writes `A` followed by a newline followed by `B`
(when the previous content is blank, `B` alone is written — see the
counterexample). -/
theorem paste_replace_and_extend (A B : String)
    (hA : isBlank A = false) :
    handleFullBubbleClick ClipboardMode.REPLACE (some A) B = B
    ∧ handleFullBubbleClick ClipboardMode.EXTEND (some A) B = A ++ "\n" ++ B := by
  refine ⟨rfl, ?_⟩
  unfold handleFullBubbleClick
  dsimp only [Option.getD]
  rw [hA]
  simp

/-- Witness for the amended C6: the spec scenario `A`/`B` under both
modes. -/
theorem paste_replace_and_extend_witness :
    handleFullBubbleClick ClipboardMode.REPLACE (some "A") "B" = "B"
    ∧ handleFullBubbleClick ClipboardMode.EXTEND (some "A") "B"
        = "A" ++ "\n" ++ "B" :=
  paste_replace_and_extend "A" "B" (by decide)

/-- Claim C10: in Extend mode with a blank (or absent) clipboard, tapping a
full bubble with content `B` writes exactly `B`, with no leading newline
delimiter. -/
theorem extend_on_blank_writes_content (A B : String)
    (hA : isBlank A = true) :
    handleFullBubbleClick ClipboardMode.EXTEND (some A) B = B
    ∧ handleFullBubbleClick ClipboardMode.EXTEND none B = B := by
  constructor
  · unfold handleFullBubbleClick
    dsimp only [Option.getD]
    rw [hA]
    simp
  · rfl

/-- Witness for C10 at the empty clipboard string. -/
theorem extend_on_blank_writes_content_witness :
    handleFullBubbleClick ClipboardMode.EXTEND (some "") "B" = "B"
    ∧ handleFullBubbleClick ClipboardMode.EXTEND none "B" = "B" :=
  extend_on_blank_writes_content "" "B" (by decide)

/-- A stored record and the bubble-service state holding the full bubble
that was spawned for it (the bubble carries the record's content, the only
binding the code maintains). -/
def entity1 : ClipboardItemEntity :=
  { id := 7
    content := "payload"
    timestamp := 0
    contentType := ContentType.TEXT
    isEncrypted := true
    size := 7 }

/-- Bubble-service state after the record `entity1` was captured: one full
bubble holding its content. -/
def bubbleState1 : BubbleServiceState :=
  { bubbles := [mkFullBubble "payload" 0]
    emptyBubble := some mkEmptyBubble
    modeBubble := some mkModeBubble
    currentMode := ClipboardMode.REPLACE }

/-- Counterexample to claim C8 as stated: deleting record `entity1` from
the History Store leaves the full bubble spawned for it fully intact — the
affordance is not removed in the same logical step (nor ever, short of
service teardown). -/
theorem delete_leaves_orphan_bubble :
    (systemDeleteRecord (bubbleState1, [entity1]) 7).2 = []
    ∧ (systemDeleteRecord (bubbleState1, [entity1]) 7).1.bubbles
        = [mkFullBubble "payload" 0]
    ∧ (systemDeleteRecord (bubbleState1, [entity1]) 7).1.bubbles ≠ [] := by
  refine ⟨?_, rfl, by decide⟩
  simp [systemDeleteRecord, deleteItemById, entity1]

/-- Claim C8 (amended): record removal performs no affordance
reconciliation — the bubble state is unchanged by any store deletion
(bubbles are bound to content snapshots, not record ids); bubbles are only
removed all together by `removeAllBubbles` on service teardown. -/
theorem delete_never_touches_bubbles
    (sys : BubbleServiceState × List ClipboardItemEntity) (id : Nat)
    (st : BubbleServiceState) :
    (systemDeleteRecord sys id).1 = sys.1
    ∧ (removeAllBubbles st).bubbles = []
    ∧ (removeAllBubbles st).emptyBubble = none
    ∧ (removeAllBubbles st).modeBubble = none :=
  ⟨rfl, rfl, rfl, rfl⟩

end Cliphist
